import Mathlib

/-!
A shallow embedding of the Swift `ClangImporter` bridge
(`lib/ClangImporter/ClangImporter.cpp`): the module-wrapper cache, the
generation counter, name lookup with the tag-name fallback, importer name
translation, and adapter-module resolution.

Foreign (Clang-side) and host (Swift-side) collaborators that are external
to the excerpt — the Clang `CompilerInstance` module loader, `Sema` name
lookup, the per-declaration translator `importDecl`, the macro translator,
the Clang token table, and the host `ASTContext` module table — are
modelled as environment records of plain functions.  Foreign modules,
foreign declarations and host modules are identified by natural numbers
standing in for object addresses; pointer equality is equality of these
identities.
-/

namespace ClangImport

/-- A Clang module (`clang::Module`).  `path` is the chain of single-segment
module names from the top-level module down to this module, so the module's
own `Name` is the last element, `getFullModuleName()` is the dot-joined
path, and `isSubModule()` holds when the path has more than one segment.
`topLevel` is the foreign identity returned by `getTopLevelModule()`. -/
structure CModule where
  path : List String
  topLevel : Nat
  deriving DecidableEq

/-- The module's own single-segment name (`clang::Module::Name`). -/
def CModule.name (m : CModule) : String := m.path.getLastD ""

/-- `clang::Module::getFullModuleName()`: the dotted submodule path. -/
def CModule.fullModuleName (m : CModule) : String :=
  String.intercalate "." m.path

/-- `clang::Module::isSubModule()`. -/
def CModule.isSubModule (m : CModule) : Bool := decide (1 < m.path.length)

/-- The foreign frontend session: the Clang module table and the Clang
`CompilerInstance::loadModule` entry point (which returns the identity of
the loaded module, or `none` when the module cannot be located/parsed). -/
structure ClangEnv where
  modules : Nat → CModule
  loadForeignModule : List String → Option Nat

/-- A host declaration produced by the external per-declaration translator
(`Impl.importDecl`).  `isValue` is `isa<ValueDecl>`, `isType` is
`isa<TypeDecl>` on the cast result, and `inSwiftModule` is whether
`getDeclContext()` equals `Impl.getSwiftModule()` (the host standard-library
shim context). -/
structure SwiftDecl where
  declId : Nat
  isValue : Bool
  isType : Bool
  inSwiftModule : Bool
  deriving DecidableEq

/-- The Clang `Sema` lookup modes used by the excerpt
(`clang::Sema::LookupNameKind`). -/
inductive LookupNameKind where
  | ordinaryName
  | objcProtocolName
  | tagName
  deriving DecidableEq

/-- The collaborators of `lookupValue` and `importName`:
`isOperatorName` is `swift::Identifier::isOperator()` on a spelling;
`isPlainIdentifier` is whether the Clang token table gives the spelling
token kind `tok::identifier`; `hasMacroDefinition`/`getMacroInfo` are the
preprocessor's macro table; `macroImport` is `Impl.importMacro`;
`lookupName` is `Sema::LookupName` in global scope (empty list = lookup
failed); `importDecl` is the external declaration translator applied to
`decl->getUnderlyingDecl()`. -/
structure SemaEnv where
  isOperatorName : String → Bool
  isPlainIdentifier : String → Bool
  hasMacroDefinition : String → Bool
  getMacroInfo : String → Option Nat
  macroImport : String → Nat → Option SwiftDecl
  lookupName : String → LookupNameKind → List Nat
  importDecl : Nat → Option SwiftDecl

/-- `isSwiftReservedName` (ClangImporter.cpp): the fixed reserved list is
exactly the boolean-literal spellings. -/
def isSwiftReservedName (name : String) : Bool :=
  name == "true" || name == "false"

/-- `ClangImporter::Implementation::importName(Identifier)`: the host→foreign
direction.  Fails on operators, on reserved spellings, and on spellings
whose Clang token kind is not a plain identifier. -/
def importName (env : SemaEnv) (name : String) : Option String :=
  if env.isOperatorName name then none
  else if isSwiftReservedName name then none
  else if env.isPlainIdentifier name then some name
  else none

/-- `llvm::StringRef::endswith`, as a suffix test on the character list.
For the ASCII suffix `"Proto"` this agrees with the byte-level test, since
ASCII bytes are always UTF-8 character boundaries. -/
def strEndsWith (s suffix : String) : Bool :=
  suffix.data.isSuffixOf s.data

/-- The base name actually looked up by `lookupValue`: a name ending in the
marker suffix `"Proto"` is stripped of the suffix
(`name.str().substr(0, name.str().size() - 5)`). -/
def lookupBaseName (name : String) : String :=
  if strEndsWith name "Proto" then name.dropRight 5 else name

/-- The `Sema` lookup mode selected by `lookupValue`: protocol-name mode
for names carrying the `"Proto"` suffix, ordinary-name mode otherwise. -/
def lookupModeOf (name : String) : LookupNameKind :=
  if strEndsWith name "Proto" then LookupNameKind.objcProtocolName
  else LookupNameKind.ordinaryName

/-- The acceptance loop over the ordinary/protocol `LookupResult` in
`ClangImporter::lookupValue`: keep declarations that translate, cast to
`ValueDecl`, and whose declaration context is not the host shim module. -/
def importLookupHits (env : SemaEnv) (found : List Nat) : List SwiftDecl :=
  found.filterMap fun d =>
    match env.importDecl d with
    | some sd => if sd.isValue && !sd.inSwiftModule then some sd else none
    | none => none

/-- The acceptance loop over the tag-name `LookupResult` in
`ClangImporter::lookupValue`: keep declarations that translate and cast to
`ValueDecl` (this loop has no shim-context filter in the source). -/
def importTagLookupHits (env : SemaEnv) (found : List Nat) : List SwiftDecl :=
  found.filterMap fun d =>
    match env.importDecl d with
    | some sd => if sd.isValue then some sd else none
    | none => none

/-- The macro probe of `ClangImporter::lookupValue`: if the translated
identifier has a macro definition, translate the macro and take the result
first. -/
def macroProbe (env : SemaEnv) (name clangName : String) : List SwiftDecl :=
  if env.hasMacroDefinition clangName then
    match env.getMacroInfo clangName with
    | some mi =>
      match env.macroImport name mi with
      | some vd => [vd]
      | none => []
    | none => []
  else []

/-- `ClangImporter::lookupValue`.  Returns the result sequence together
with the trace of `Sema::LookupName` calls performed (base name and mode),
which makes "tag lookup was attempted" observable.  The access-path guard,
the `"Proto"` stripping, the name translation bail-out, the macro probe,
the ordinary/protocol lookup with its acceptance filter and `FoundType`
tracking, and the guarded tag-name fallback follow the source in order. -/
def lookupValue (env : SemaEnv) (accessPath : List String) (name0 : String) :
    List SwiftDecl × List (String × LookupNameKind) :=
  if accessPath.length = 1 ∧ accessPath.head? ≠ some name0 then ([], [])
  else
    let name := lookupBaseName name0
    let lookupNameKind := lookupModeOf name0
    match importName env name with
    | none => ([], [])
    | some clangName =>
      let macroResults := macroProbe env name clangName
      let found := env.lookupName clangName lookupNameKind
      let ordinaryResults := importLookupHits env found
      let foundType := ordinaryResults.any fun sd => sd.isType
      if lookupNameKind = LookupNameKind.ordinaryName ∧ foundType = false then
        let tagFound := env.lookupName clangName LookupNameKind.tagName
        (macroResults ++ ordinaryResults ++ importTagLookupHits env tagFound,
         [(clangName, lookupNameKind), (clangName, LookupNameKind.tagName)])
      else
        (macroResults ++ ordinaryResults, [(clangName, lookupNameKind)])

/-- A host wrapper module (`swift::ClangModule`).  `id` is the object
identity assigned at allocation (pointer equality is `id` equality);
`name` is the host identifier passed to the `LoadedModule` base
(`ctx.getIdentifier(clangModule->Name)`); `debugName` is the
`DebugModuleName` constructor argument; `component` is the identity of the
`Component` the wrapper was built with; `underlying` is the foreign
identity of the wrapped `clang::Module`. -/
structure ClangModuleW where
  id : Nat
  name : String
  debugName : String
  component : Nat
  underlying : Nat
  deriving DecidableEq

/-- One entry of `Impl.ModuleWrappers`: the `PointerIntPair` of the wrapper
pointer and the adapters-forced bit. -/
structure WrapperEntry where
  wrapper : ClangModuleW
  adaptersForced : Bool
  deriving DecidableEq

/-- First-match association-list lookup (`DenseMap` access keyed by the
foreign module identity). -/
def lookupEntry {α : Type} (l : List (Nat × α)) (k : Nat) : Option α :=
  match l with
  | [] => none
  | (k', v) :: rest => if k' = k then some v else lookupEntry rest k

/-- `cachedResult.setInt(true)` on the cache entry for key `k`: set the
adapters-forced bit of the first entry with that key. -/
def setForcedEntry (l : List (Nat × WrapperEntry)) (k : Nat) :
    List (Nat × WrapperEntry) :=
  match l with
  | [] => []
  | (k', e) :: rest =>
    if k' = k then (k', ⟨e.wrapper, true⟩) :: rest
    else (k', e) :: setForcedEntry rest k

/-- Replace-or-insert into the host `Ctx.LoadedModules` table
(`Ctx.LoadedModules[Name.str()] = adapter`). -/
def setLoadedModule (l : List (String × Nat)) (k : String) (v : Nat) :
    List (String × Nat) :=
  match l with
  | [] => [(k, v)]
  | (k', v') :: rest =>
    if k' = k then (k, v) :: rest
    else (k', v') :: setLoadedModule rest k v

/-- The mutable state of the importer and of the host context that the
excerpt touches: the wrapper cache `Impl.ModuleWrappers`, the counters
`Impl.Generation` / `Impl.ImportCounter` and the mirrored
`SwiftContext` generation, a fresh-identity allocator standing in for the
host allocator, `Impl.firstClangModule`, the per-wrapper adapter bindings
(`ClangModule::adapterModule` pointer+bool pairs, keyed by wrapper
identity; presence of a key means the bool is set), the host
`Ctx.LoadedModules` table, and two observation logs: `traversals` records
each `forAllVisibleModules` forcing (by wrapper identity) and
`hostLookups` records each `Ctx.getModule` consultation (by name). -/
structure ImporterState where
  moduleWrappers : List (Nat × WrapperEntry)
  generation : Nat
  ctxGeneration : Nat
  importCounter : Nat
  nextAlloc : Nat
  firstClangModule : Option Nat
  adapterBindings : List (Nat × Option Nat)
  loadedModules : List (String × Nat)
  traversals : List Nat
  hostLookups : List String
  deriving DecidableEq

/-- The empty importer state at bridge construction. -/
def initState : ImporterState where
  moduleWrappers := []
  generation := 0
  ctxGeneration := 0
  importCounter := 0
  nextAlloc := 0
  firstClangModule := none
  adapterBindings := []
  loadedModules := []
  traversals := []
  hostLookups := []

/-- The `ClangModule` constructor: the host identifier is the underlying
module's own single-segment `Name`, while the `DebugModuleName` argument
is stored as passed (both call sites pass `getFullModuleName()`). -/
def mkClangModule (env : ClangEnv) (allocId : Nat) (debugName : String)
    (component : Nat) (underlying : Nat) : ClangModuleW where
  id := allocId
  name := (env.modules underlying).name
  debugName := debugName
  component := component
  underlying := underlying

/-- `ClangImporter::Implementation::getWrapperModule`: on a cache hit
return the cached wrapper; on a miss allocate a fresh `Component` when none
was supplied, construct the wrapper with the underlying module's full name
as debug name, and insert it into the cache (adapters-forced bit clear).
No generation counter is touched here. -/
def getWrapperModule (env : ClangEnv) (underlying : Nat)
    (component : Option Nat) (s : ImporterState) :
    ClangModuleW × ImporterState :=
  match lookupEntry s.moduleWrappers underlying with
  | some e => (e.wrapper, s)
  | none =>
    let comp := match component with
      | some c => c
      | none => s.nextAlloc
    let s1 := match component with
      | some _ => s
      | none => { s with nextAlloc := s.nextAlloc + 1 }
    let w := mkClangModule env s1.nextAlloc
      (env.modules underlying).fullModuleName comp underlying
    let s2 := { s1 with
      nextAlloc := s1.nextAlloc + 1,
      moduleWrappers := (underlying, ⟨w, false⟩) :: s1.moduleWrappers }
    (w, s2)

/-- `ClangImporter::loadModule`: bump the bogus source-location counter,
ask the Clang frontend to load the dotted path, and return `none` on
failure before touching any cache.  On a cache hit return the cached
wrapper, setting the adapters-forced bit if it was clear (the eager
traversal call in that branch is commented out in the source, so no
traversal is logged).  On a miss allocate a fresh `Component`, construct
the wrapper with the full module name as debug name, insert it, remember
the first wrapper, set the forced bit and log the one eager
`forAllVisibleModules` traversal, then bump both generation counters. -/
def loadModule (env : ClangEnv) (path : List String) (s : ImporterState) :
    Option ClangModuleW × ImporterState :=
  let s0 := { s with importCounter := s.importCounter + 1 }
  match env.loadForeignModule path with
  | none => (none, s0)
  | some cm =>
    match lookupEntry s0.moduleWrappers cm with
    | some e =>
      if e.adaptersForced then (some e.wrapper, s0)
      else (some e.wrapper,
        { s0 with moduleWrappers := setForcedEntry s0.moduleWrappers cm })
    | none =>
      let comp := s0.nextAlloc
      let s1 := { s0 with nextAlloc := s0.nextAlloc + 1 }
      let w := mkClangModule env s1.nextAlloc
        (env.modules cm).fullModuleName comp cm
      let s2 := { s1 with
        nextAlloc := s1.nextAlloc + 1,
        moduleWrappers := (cm, ⟨w, false⟩) :: s1.moduleWrappers }
      let s3 := match s2.firstClangModule with
        | none => { s2 with firstClangModule := some w.id }
        | some _ => s2
      let s4 := { s3 with
        moduleWrappers := setForcedEntry s3.moduleWrappers cm,
        traversals := s3.traversals ++ [w.id] }
      (some w, { s4 with
        generation := s4.generation + 1,
        ctxGeneration := s4.ctxGeneration + 1 })

/-- What the host `ASTContext::getModule` hands back for a name: either a
foreign wrapper (`isa<ClangModule>` holds) or a genuine host module. -/
inductive HostModuleRef where
  | clangWrapper : Nat → HostModuleRef
  | swiftModule : Nat → HostModuleRef
  deriving DecidableEq

/-- The host compiler's module table, external to the excerpt. -/
structure HostEnv where
  getModule : String → HostModuleRef

/-- The top-level branch of `ClangModule::getAdapterModule`: if the
adapter binding is already resolved, return it; otherwise consult the host
module table for this wrapper's name (logged in `hostLookups`), treat a
foreign wrapper as "no adapter", register a genuine host module in
`Ctx.LoadedModules`, and cache the outcome (including absence)
permanently. -/
def getAdapterModuleTop (host : HostEnv) (w : ClangModuleW)
    (s : ImporterState) : Option Nat × ImporterState :=
  match lookupEntry s.adapterBindings w.id with
  | some r => (r, s)
  | none =>
    let s1 := { s with hostLookups := s.hostLookups ++ [w.name] }
    match host.getModule w.name with
    | HostModuleRef.clangWrapper _ =>
      (none, { s1 with adapterBindings := (w.id, none) :: s1.adapterBindings })
    | HostModuleRef.swiftModule i =>
      (some i, { s1 with
        loadedModules := setLoadedModule s1.loadedModules w.name i,
        adapterBindings := (w.id, some i) :: s1.adapterBindings })

/-- `ClangModule::getAdapterModule`: a submodule wrapper obtains the
wrapper of its underlying module's top-level module (passing its own
component) and recurses to that wrapper's adapter; since
`getTopLevelModule()` never yields a submodule, the recursive call is the
top-level branch, inlined here as one unfolding.  A top-level wrapper
resolves its own binding. -/
def getAdapterModule (env : ClangEnv) (host : HostEnv) (w : ClangModuleW)
    (s : ImporterState) : Option Nat × ImporterState :=
  if (env.modules w.underlying).isSubModule then
    let p := getWrapperModule env (env.modules w.underlying).topLevel
      (some w.component) s
    getAdapterModuleTop host p.1 p.2
  else
    getAdapterModuleTop host w s

/-- The adapters-forced bit recorded for foreign identity `k` (false when
no entry exists). -/
def wrapperForced (s : ImporterState) (k : Nat) : Bool :=
  match lookupEntry s.moduleWrappers k with
  | some e => e.adaptersForced
  | none => false

/-! Concrete test fixtures used to instantiate the theorems below. -/

/-- A foreign world with a top-level module `Kit` (identity 0) and its
submodule `Kit.Sub` (identity 1); only the path `["Kit"]` loads. -/
def clangEnvA : ClangEnv where
  modules := fun i =>
    if i = 1 then { path := ["Kit", "Sub"], topLevel := 0 }
    else { path := ["Kit"], topLevel := 0 }
  loadForeignModule := fun p => if p = ["Kit"] then some 0 else none

/-- A host module table that answers every name with a foreign wrapper. -/
def hostEnvA : HostEnv where
  getModule := fun _ => HostModuleRef.clangWrapper 99

/-- A `Sema` world where every spelling is a plain identifier and all
lookups are empty. -/
def semaEnvA : SemaEnv where
  isOperatorName := fun _ => false
  isPlainIdentifier := fun _ => true
  hasMacroDefinition := fun _ => false
  getMacroInfo := fun _ => none
  macroImport := fun _ _ => none
  lookupName := fun _ _ => []
  importDecl := fun _ => none

/-- A bridge-internal declaration living in the host shim module. -/
def shimDecl : SwiftDecl where
  declId := 7
  isValue := true
  isType := false
  inSwiftModule := true

/-- An ordinary accepted type-like declaration. -/
def okDecl : SwiftDecl where
  declId := 3
  isValue := true
  isType := true
  inSwiftModule := false

/-- A `Sema` world where tag-name lookup for `Point` finds a foreign
declaration that translates into the shim declaration. -/
def semaEnvShim : SemaEnv :=
  { semaEnvA with
    lookupName := fun n k =>
      if n = "Point" ∧ k = LookupNameKind.tagName then [7] else [],
    importDecl := fun d => if d = 7 then some shimDecl else none }

/-- A `Sema` world where ordinary lookup for `Point` finds a foreign
declaration that translates into an accepted type-like declaration. -/
def semaEnvOk : SemaEnv :=
  { semaEnvA with
    lookupName := fun n k =>
      if n = "Point" ∧ k = LookupNameKind.ordinaryName then [3] else [],
    importDecl := fun d => if d = 3 then some okDecl else none }

/-- A submodule wrapper over foreign identity 1 (`Kit.Sub`). -/
def wSubA : ClangModuleW where
  id := 50
  name := "Sub"
  debugName := "Kit.Sub"
  component := 9
  underlying := 1

/-! Branch characterization lemmas for the cache operations. -/

theorem lookupEntry_cons_self {α : Type} (k : Nat) (v : α)
    (l : List (Nat × α)) : lookupEntry ((k, v) :: l) k = some v := by
  simp [lookupEntry]

theorem lookupEntry_cons_ne {α : Type} {k k' : Nat} (v : α)
    (l : List (Nat × α)) (h : k' ≠ k) :
    lookupEntry ((k', v) :: l) k = lookupEntry l k := by
  simp [lookupEntry, h]

theorem gwm_hit (env : ClangEnv) (u : Nat) (c : Option Nat)
    (s : ImporterState) (e : WrapperEntry)
    (h : lookupEntry s.moduleWrappers u = some e) :
    getWrapperModule env u c s = (e.wrapper, s) := by
  unfold getWrapperModule
  rw [h]

theorem gwm_miss_none (env : ClangEnv) (u : Nat) (s : ImporterState)
    (h : lookupEntry s.moduleWrappers u = none) :
    getWrapperModule env u none s =
      (mkClangModule env (s.nextAlloc + 1) (env.modules u).fullModuleName
        s.nextAlloc u,
       { s with
         nextAlloc := s.nextAlloc + 2,
         moduleWrappers :=
           (u, ⟨mkClangModule env (s.nextAlloc + 1)
                  (env.modules u).fullModuleName s.nextAlloc u, false⟩) ::
             s.moduleWrappers }) := by
  unfold getWrapperModule
  rw [h]

theorem gwm_miss_some (env : ClangEnv) (u c : Nat) (s : ImporterState)
    (h : lookupEntry s.moduleWrappers u = none) :
    getWrapperModule env u (some c) s =
      (mkClangModule env s.nextAlloc (env.modules u).fullModuleName c u,
       { s with
         nextAlloc := s.nextAlloc + 1,
         moduleWrappers :=
           (u, ⟨mkClangModule env s.nextAlloc
                  (env.modules u).fullModuleName c u, false⟩) ::
             s.moduleWrappers }) := by
  unfold getWrapperModule
  rw [h]

theorem gwm_cachedEntry (env : ClangEnv) (u : Nat) (c : Option Nat)
    (s : ImporterState) :
    ∃ b, lookupEntry ((getWrapperModule env u c s).2).moduleWrappers u =
      some ⟨(getWrapperModule env u c s).1, b⟩ := by
  rcases h : lookupEntry s.moduleWrappers u with _ | e
  · refine ⟨false, ?_⟩
    rcases c with _ | c0
    · rw [gwm_miss_none env u s h]
      exact lookupEntry_cons_self _ _ _
    · rw [gwm_miss_some env u c0 s h]
      exact lookupEntry_cons_self _ _ _
  · refine ⟨e.adaptersForced, ?_⟩
    rw [gwm_hit env u c s e h]
    exact h

theorem gwm_stable (env : ClangEnv) (u : Nat) (c c' : Option Nat)
    (s : ImporterState) :
    getWrapperModule env u c' ((getWrapperModule env u c s).2) =
      getWrapperModule env u c s := by
  obtain ⟨b, h⟩ := gwm_cachedEntry env u c s
  exact gwm_hit env u c' _ _ h

theorem loadModule_fail (env : ClangEnv) (p : List String)
    (s : ImporterState) (h : env.loadForeignModule p = none) :
    loadModule env p s =
      (none, { s with importCounter := s.importCounter + 1 }) := by
  simp [loadModule, h]

theorem loadModule_hit_forced (env : ClangEnv) (p : List String)
    (s : ImporterState) (cm : Nat) (e : WrapperEntry)
    (h1 : env.loadForeignModule p = some cm)
    (h2 : lookupEntry s.moduleWrappers cm = some e)
    (h3 : e.adaptersForced = true) :
    loadModule env p s =
      (some e.wrapper, { s with importCounter := s.importCounter + 1 }) := by
  simp [loadModule, h1, h2, h3]

theorem loadModule_hit_unforced (env : ClangEnv) (p : List String)
    (s : ImporterState) (cm : Nat) (e : WrapperEntry)
    (h1 : env.loadForeignModule p = some cm)
    (h2 : lookupEntry s.moduleWrappers cm = some e)
    (h3 : e.adaptersForced = false) :
    loadModule env p s =
      (some e.wrapper,
       { s with
         importCounter := s.importCounter + 1,
         moduleWrappers := setForcedEntry s.moduleWrappers cm }) := by
  simp [loadModule, h1, h2, h3]

theorem loadModule_miss (env : ClangEnv) (p : List String)
    (s : ImporterState) (cm : Nat)
    (h1 : env.loadForeignModule p = some cm)
    (h2 : lookupEntry s.moduleWrappers cm = none) :
    loadModule env p s =
      (some (mkClangModule env (s.nextAlloc + 1)
              (env.modules cm).fullModuleName s.nextAlloc cm),
       { s with
         importCounter := s.importCounter + 1,
         nextAlloc := s.nextAlloc + 2,
         moduleWrappers :=
           (cm, ⟨mkClangModule env (s.nextAlloc + 1)
                   (env.modules cm).fullModuleName s.nextAlloc cm, true⟩) ::
             s.moduleWrappers,
         firstClangModule := some (s.firstClangModule.getD (s.nextAlloc + 1)),
         traversals := s.traversals ++ [s.nextAlloc + 1],
         generation := s.generation + 1,
         ctxGeneration := s.ctxGeneration + 1 }) := by
  rcases hf : s.firstClangModule with _ | x <;>
    simp [loadModule, h1, h2, hf, setForcedEntry, Option.getD, mkClangModule]

theorem lookupEntry_setForced (l : List (Nat × WrapperEntry)) (cm k : Nat) :
    lookupEntry (setForcedEntry l cm) k =
      if cm = k then
        (lookupEntry l k).map fun e => ⟨e.wrapper, true⟩
      else lookupEntry l k := by
  induction l with
  | nil =>
    simp only [setForcedEntry, lookupEntry, Option.map_none]
    split <;> rfl
  | cons hd tl ih =>
    obtain ⟨k', e⟩ := hd
    by_cases h1 : k' = cm
    · subst h1
      by_cases h2 : k' = k
      · subst h2
        simp [setForcedEntry, lookupEntry]
      · simp [setForcedEntry, lookupEntry, h2]
    · by_cases h2 : k' = k
      · subst h2
        have hcm : ¬ cm = k' := fun h => h1 h.symm
        simp [setForcedEntry, lookupEntry, h1, hcm]
      · simp [setForcedEntry, lookupEntry, h1, h2, ih]

theorem adapterTop_moduleWrappers (host : HostEnv) (w : ClangModuleW)
    (s : ImporterState) :
    ((getAdapterModuleTop host w s).2).moduleWrappers = s.moduleWrappers := by
  rcases h : lookupEntry s.adapterBindings w.id with _ | r
  · rcases hm : host.getModule w.name with i | i <;>
      simp [getAdapterModuleTop, h, hm]
  · simp [getAdapterModuleTop, h]

theorem adapterTop_idem (host : HostEnv) (w : ClangModuleW)
    (s : ImporterState) :
    getAdapterModuleTop host w ((getAdapterModuleTop host w s).2) =
      getAdapterModuleTop host w s := by
  rcases h : lookupEntry s.adapterBindings w.id with _ | r
  · rcases hm : host.getModule w.name with i | i <;>
      simp [getAdapterModuleTop, h, hm, lookupEntry]
  · simp [getAdapterModuleTop, h]

/-! The claims. -/

/-- C1: Wrapper identity — a cache hit in `getWrapperModule` returns the
cached wrapper unconditionally with the state untouched (so no new wrapper
is constructed), and a second call for the same foreign module identity
returns the pointer-identical wrapper and leaves the state of the first
call unchanged, regardless of the component argument supplied on the
second call. -/
theorem c1_wrapper_identity (env : ClangEnv) (m : Nat) (c c' : Option Nat)
    (s : ImporterState) :
    (∀ e, lookupEntry s.moduleWrappers m = some e →
      getWrapperModule env m c s = (e.wrapper, s)) ∧
    getWrapperModule env m c' ((getWrapperModule env m c s).2) =
      getWrapperModule env m c s :=
  ⟨fun e h => gwm_hit env m c s e h, gwm_stable env m c c' s⟩

/-- C1 witness: after wrapping foreign module 0 once, a second call with a
different component argument returns the same wrapper object and the same
state. -/
theorem c1_wrapper_identity_witness :
    getWrapperModule clangEnvA 0 (some 5)
        ((getWrapperModule clangEnvA 0 none initState).2) =
      ((⟨1, "Kit", "Kit", 0, 0⟩ : ClangModuleW),
        (getWrapperModule clangEnvA 0 none initState).2) :=
  (c1_wrapper_identity clangEnvA 0 (some 5) none
      ((getWrapperModule clangEnvA 0 none initState).2)).1
    ⟨⟨1, "Kit", "Kit", 0, 0⟩, false⟩ (by decide)

/-- C2 counterexample: `getWrapperModule` creates a brand-new wrapper for
foreign module 0 (the cache gains an entry it did not have) yet the
generation counter is not incremented, contradicting the claim that every
creation — whether through `loadModule` or `getWrapperModule` — increments
it by exactly 1. -/
theorem c2_generation_counterexample :
    lookupEntry initState.moduleWrappers 0 = none ∧
    (lookupEntry
      ((getWrapperModule clangEnvA 0 none initState).2).moduleWrappers
      0).isSome = true ∧
    ((getWrapperModule clangEnvA 0 none initState).2).generation =
      initState.generation := by
  decide

/-- C2 (amended): only `loadModule` bumps the generation counter —
by exactly 1 when it creates a new wrapper; cache hits and load failures
leave the counter unchanged; and `getWrapperModule` never touches the
counter even when it creates a new wrapper. -/
theorem c2_generation_loadModule_only (env : ClangEnv) (u : Nat)
    (c : Option Nat) (p : List String) (s : ImporterState) :
    ((getWrapperModule env u c s).2).generation = s.generation ∧
    (env.loadForeignModule p = none →
      ((loadModule env p s).2).generation = s.generation) ∧
    (∀ cm e, env.loadForeignModule p = some cm →
      lookupEntry s.moduleWrappers cm = some e →
      ((loadModule env p s).2).generation = s.generation) ∧
    (∀ cm, env.loadForeignModule p = some cm →
      lookupEntry s.moduleWrappers cm = none →
      ((loadModule env p s).2).generation = s.generation + 1) := by
  refine ⟨?_, ?_, ?_, ?_⟩
  · rcases h : lookupEntry s.moduleWrappers u with _ | e
    · rcases c with _ | c0
      · rw [gwm_miss_none env u s h]
      · rw [gwm_miss_some env u c0 s h]
    · rw [gwm_hit env u c s e h]
  · intro h
    rw [loadModule_fail env p s h]
  · intro cm e h1 h2
    cases h3 : e.adaptersForced
    · rw [loadModule_hit_unforced env p s cm e h1 h2 h3]
    · rw [loadModule_hit_forced env p s cm e h1 h2 h3]
  · intro cm h1 h2
    rw [loadModule_miss env p s cm h1 h2]

/-- C2 witness: wrapping `Kit` through `getWrapperModule` leaves the
counter at 0; the first `loadModule` of `Kit` takes it to 1; a second
`loadModule` (a cache hit) leaves it at 1. -/
theorem c2_generation_loadModule_only_witness :
    ((getWrapperModule clangEnvA 0 none initState).2).generation =
      initState.generation ∧
    ((loadModule clangEnvA ["Kit"] initState).2).generation =
      initState.generation + 1 ∧
    ((loadModule clangEnvA ["Kit"]
        ((loadModule clangEnvA ["Kit"] initState).2)).2).generation =
      ((loadModule clangEnvA ["Kit"] initState).2).generation :=
  ⟨(c2_generation_loadModule_only clangEnvA 0 none ["Kit"] initState).1,
   (c2_generation_loadModule_only clangEnvA 0 none ["Kit"]
       initState).2.2.2 0 (by decide) (by decide),
   (c2_generation_loadModule_only clangEnvA 0 none ["Kit"]
       ((loadModule clangEnvA ["Kit"] initState).2)).2.2.1 0
     ⟨⟨1, "Kit", "Kit", 0, 0⟩, true⟩ (by decide) (by decide)⟩

/-- C3: Load-failure atomicity — when the foreign frontend fails to load
the import path, `loadModule` returns `none` and neither the wrapper
cache, nor the generation counter, nor the allocator (so no wrapper was
created), nor the traversal log change. -/
theorem c3_load_failure_atomic (env : ClangEnv) (p : List String)
    (s : ImporterState) (h : env.loadForeignModule p = none) :
    (loadModule env p s).1 = none ∧
    ((loadModule env p s).2).moduleWrappers = s.moduleWrappers ∧
    ((loadModule env p s).2).generation = s.generation ∧
    ((loadModule env p s).2).nextAlloc = s.nextAlloc ∧
    ((loadModule env p s).2).traversals = s.traversals := by
  rw [loadModule_fail env p s h]
  exact ⟨rfl, rfl, rfl, rfl, rfl⟩

/-- C3 witness: loading the unknown path `Nope` fails and leaves the
wrapper cache, the generation counter, the allocator and the traversal log
of the initial state untouched. -/
theorem c3_load_failure_atomic_witness :
    (loadModule clangEnvA ["Nope"] initState).1 = none ∧
    ((loadModule clangEnvA ["Nope"] initState).2).moduleWrappers =
      initState.moduleWrappers ∧
    ((loadModule clangEnvA ["Nope"] initState).2).generation =
      initState.generation ∧
    ((loadModule clangEnvA ["Nope"] initState).2).nextAlloc =
      initState.nextAlloc ∧
    ((loadModule clangEnvA ["Nope"] initState).2).traversals =
      initState.traversals :=
  c3_load_failure_atomic clangEnvA ["Nope"] initState (by decide)

theorem wrapperForced_congr {s s' : ImporterState} (k : Nat)
    (h : s'.moduleWrappers = s.moduleWrappers) :
    wrapperForced s' k = wrapperForced s k := by
  unfold wrapperForced
  rw [h]

theorem forced_mono_setForced (l : List (Nat × WrapperEntry)) (cm k : Nat)
    (e : WrapperEntry) (h : lookupEntry l k = some e)
    (he : e.adaptersForced = true) :
    ∃ e', lookupEntry (setForcedEntry l cm) k = some e' ∧
      e'.adaptersForced = true := by
  by_cases hck : cm = k
  · refine ⟨⟨e.wrapper, true⟩, ?_, rfl⟩
    rw [lookupEntry_setForced, if_pos hck, h]
    rfl
  · exact ⟨e, by rw [lookupEntry_setForced, if_neg hck]; exact h, he⟩

theorem forced_mono_gwm (env : ClangEnv) (u : Nat) (c : Option Nat)
    (k : Nat) (s : ImporterState) (hk : wrapperForced s k = true) :
    wrapperForced ((getWrapperModule env u c s).2) k = true := by
  rcases hke : lookupEntry s.moduleWrappers k with _ | e
  · simp [wrapperForced, hke] at hk
  · have he : e.adaptersForced = true := by
      simpa [wrapperForced, hke] using hk
    rcases h2 : lookupEntry s.moduleWrappers u with _ | e2
    · have hne : u ≠ k := by
        intro hh
        rw [hh, hke] at h2
        cases h2
      rcases c with _ | c0
      · rw [gwm_miss_none env u s h2]
        have hl : lookupEntry
            ((u, (⟨mkClangModule env (s.nextAlloc + 1)
                    (env.modules u).fullModuleName s.nextAlloc u,
                  false⟩ : WrapperEntry)) :: s.moduleWrappers) k = some e := by
          rw [lookupEntry_cons_ne _ _ hne]
          exact hke
        simpa [wrapperForced, hl] using he
      · rw [gwm_miss_some env u c0 s h2]
        have hl : lookupEntry
            ((u, (⟨mkClangModule env s.nextAlloc
                    (env.modules u).fullModuleName c0 u,
                  false⟩ : WrapperEntry)) :: s.moduleWrappers) k = some e := by
          rw [lookupEntry_cons_ne _ _ hne]
          exact hke
        simpa [wrapperForced, hl] using he
    · rw [gwm_hit env u c s e2 h2]
      simpa [wrapperForced, hke] using he

theorem forced_mono_loadModule (env : ClangEnv) (p : List String)
    (k : Nat) (s : ImporterState) (hk : wrapperForced s k = true) :
    wrapperForced ((loadModule env p s).2) k = true := by
  rcases hke : lookupEntry s.moduleWrappers k with _ | e
  · simp [wrapperForced, hke] at hk
  · have he : e.adaptersForced = true := by
      simpa [wrapperForced, hke] using hk
    rcases h1 : env.loadForeignModule p with _ | cm
    · rw [loadModule_fail env p s h1]
      simpa [wrapperForced, hke] using he
    · rcases h2 : lookupEntry s.moduleWrappers cm with _ | e2
      · have hne : cm ≠ k := by
          intro hh
          rw [hh, hke] at h2
          cases h2
        rw [loadModule_miss env p s cm h1 h2]
        have hl : lookupEntry
            ((cm, (⟨mkClangModule env (s.nextAlloc + 1)
                     (env.modules cm).fullModuleName s.nextAlloc cm,
                   true⟩ : WrapperEntry)) :: s.moduleWrappers) k = some e := by
          rw [lookupEntry_cons_ne _ _ hne]
          exact hke
        simpa [wrapperForced, hl] using he
      · cases h3 : e2.adaptersForced
        · rw [loadModule_hit_unforced env p s cm e2 h1 h2 h3]
          obtain ⟨e', he1, he2⟩ :=
            forced_mono_setForced s.moduleWrappers cm k e hke he
          simpa [wrapperForced, he1] using he2
        · rw [loadModule_hit_forced env p s cm e2 h1 h2 h3]
          simpa [wrapperForced, hke] using he

theorem forced_mono_adapter (env : ClangEnv) (host : HostEnv)
    (w : ClangModuleW) (k : Nat) (s : ImporterState)
    (hk : wrapperForced s k = true) :
    wrapperForced ((getAdapterModule env host w s).2) k = true := by
  unfold getAdapterModule
  by_cases hsub : (env.modules w.underlying).isSubModule = true
  · simp only [hsub, if_true]
    rw [wrapperForced_congr k (adapterTop_moduleWrappers _ _ _)]
    exact forced_mono_gwm env _ _ k s hk
  · simp only [hsub, Bool.false_eq_true, if_false]
    rw [wrapperForced_congr k (adapterTop_moduleWrappers _ _ _)]
    exact hk

/-- C7 counterexample: wrap `Kit` through `getWrapperModule` (the cache
entry exists with the adapters-forced flag still false), then let
`loadModule` return that previously cached wrapper for the first time: the
flag is set, but no eager traversal of the module's visible imports runs
(the traversal log stays empty, because that call is commented out in the
cache-hit branch of the source), contradicting the claim that the first
`loadModule` return both sets the flag and forces the traversal. -/
theorem c7_traversal_counterexample :
    wrapperForced ((getWrapperModule clangEnvA 0 none initState).2) 0 =
      false ∧
    (loadModule clangEnvA ["Kit"]
        ((getWrapperModule clangEnvA 0 none initState).2)).1 =
      some ⟨1, "Kit", "Kit", 0, 0⟩ ∧
    wrapperForced
      ((loadModule clangEnvA ["Kit"]
          ((getWrapperModule clangEnvA 0 none initState).2)).2) 0 = true ∧
    ((loadModule clangEnvA ["Kit"]
        ((getWrapperModule clangEnvA 0 none initState).2)).2).traversals =
      [] := by
  decide

/-- C7 (amended): the adapters-forced flag is monotonic — once true for a
cached identity it stays true across `loadModule`, `getWrapperModule` and
`getAdapterModule`; when `loadModule` creates a wrapper it sets the flag
and forces the eager traversal exactly once; when `loadModule` returns a
previously cached wrapper whose flag is still false it sets the flag but
performs no traversal (that call is commented out in the source). -/
theorem c7_adapters_forced_monotone (env : ClangEnv) (p : List String)
    (u : Nat) (c : Option Nat) (host : HostEnv) (w : ClangModuleW)
    (k : Nat) (s : ImporterState) :
    (wrapperForced s k = true →
      wrapperForced ((loadModule env p s).2) k = true) ∧
    (wrapperForced s k = true →
      wrapperForced ((getWrapperModule env u c s).2) k = true) ∧
    (wrapperForced s k = true →
      wrapperForced ((getAdapterModule env host w s).2) k = true) ∧
    (∀ cm, env.loadForeignModule p = some cm →
      lookupEntry s.moduleWrappers cm = none →
      wrapperForced ((loadModule env p s).2) cm = true ∧
      ∃ w0, (loadModule env p s).1 = some w0 ∧
        ((loadModule env p s).2).traversals = s.traversals ++ [w0.id]) ∧
    (∀ cm e, env.loadForeignModule p = some cm →
      lookupEntry s.moduleWrappers cm = some e →
      e.adaptersForced = false →
      wrapperForced ((loadModule env p s).2) cm = true ∧
      ((loadModule env p s).2).traversals = s.traversals) := by
  refine ⟨forced_mono_loadModule env p k s,
          forced_mono_gwm env u c k s,
          forced_mono_adapter env host w k s, ?_, ?_⟩
  · intro cm h1 h2
    rw [loadModule_miss env p s cm h1 h2]
    refine ⟨?_, _, rfl, rfl⟩
    simp [wrapperForced, lookupEntry_cons_self]
  · intro cm e h1 h2 h3
    rw [loadModule_hit_unforced env p s cm e h1 h2 h3]
    refine ⟨?_, rfl⟩
    have : lookupEntry (setForcedEntry s.moduleWrappers cm) cm =
        some ⟨e.wrapper, true⟩ := by
      rw [lookupEntry_setForced, if_pos rfl, h2]
      rfl
    simp [wrapperForced, this]

/-- C7 witness: the first `loadModule` of `Kit` creates the wrapper and
sets its flag; the second `loadModule` (flag already true) keeps it true.
-/
theorem c7_adapters_forced_monotone_witness :
    wrapperForced ((loadModule clangEnvA ["Kit"] initState).2) 0 = true ∧
    wrapperForced
      ((loadModule clangEnvA ["Kit"]
          ((loadModule clangEnvA ["Kit"] initState).2)).2) 0 = true :=
  ⟨((c7_adapters_forced_monotone clangEnvA ["Kit"] 0 none hostEnvA wSubA 0
        initState).2.2.2.1 0 (by decide) (by decide)).1,
   (c7_adapters_forced_monotone clangEnvA ["Kit"] 0 none hostEnvA wSubA 0
       ((loadModule clangEnvA ["Kit"] initState).2)).1 (by decide)⟩

/-- C6: Adapter memoization — calling `getAdapterModule` twice on the same
wrapper gives the identical result (including absence) and an identical
state both times, so the Unresolved-to-Resolved transition fires at most
once and the second call consults neither the host module table nor
anything else; and a submodule wrapper's adapter is obtained by resolving
the adapter of its top-level module's wrapper. -/
theorem c6_adapter_memoization (env : ClangEnv) (host : HostEnv)
    (w : ClangModuleW) (s : ImporterState) :
    getAdapterModule env host w ((getAdapterModule env host w s).2) =
      getAdapterModule env host w s ∧
    ((env.modules w.underlying).isSubModule = true →
      getAdapterModule env host w s =
        getAdapterModuleTop host
          ((getWrapperModule env (env.modules w.underlying).topLevel
              (some w.component) s).1)
          ((getWrapperModule env (env.modules w.underlying).topLevel
              (some w.component) s).2)) := by
  constructor
  · by_cases hsub : (env.modules w.underlying).isSubModule = true
    · unfold getAdapterModule
      simp only [hsub, if_true]
      obtain ⟨b, hb⟩ := gwm_cachedEntry env
        (env.modules w.underlying).topLevel (some w.component) s
      have hb2 : lookupEntry
          ((getAdapterModuleTop host
              ((getWrapperModule env (env.modules w.underlying).topLevel
                  (some w.component) s).1)
              ((getWrapperModule env (env.modules w.underlying).topLevel
                  (some w.component) s).2)).2).moduleWrappers
          (env.modules w.underlying).topLevel =
          some ⟨(getWrapperModule env (env.modules w.underlying).topLevel
              (some w.component) s).1, b⟩ := by
        rw [adapterTop_moduleWrappers]
        exact hb
      rw [gwm_hit env _ (some w.component) _ _ hb2]
      exact adapterTop_idem host _ _
    · unfold getAdapterModule
      have hsub' : (env.modules w.underlying).isSubModule = false := by
        rwa [Bool.not_eq_true] at hsub
      simp only [hsub', Bool.false_eq_true, if_false]
      exact adapterTop_idem host w s
  · intro hsub
    unfold getAdapterModule
    simp only [hsub, if_true]

/-- C6 witness: the submodule wrapper of `Kit.Sub` resolves through the
top-level wrapper of `Kit`, and a second resolution returns the same
(absent) adapter with the same state. -/
theorem c6_adapter_memoization_witness :
    getAdapterModule clangEnvA hostEnvA wSubA
        ((getAdapterModule clangEnvA hostEnvA wSubA initState).2) =
      getAdapterModule clangEnvA hostEnvA wSubA initState ∧
    getAdapterModule clangEnvA hostEnvA wSubA initState =
      getAdapterModuleTop hostEnvA
        ((getWrapperModule clangEnvA
            (clangEnvA.modules wSubA.underlying).topLevel
            (some wSubA.component) initState).1)
        ((getWrapperModule clangEnvA
            (clangEnvA.modules wSubA.underlying).topLevel
            (some wSubA.component) initState).2) :=
  ⟨(c6_adapter_memoization clangEnvA hostEnvA wSubA initState).1,
   (c6_adapter_memoization clangEnvA hostEnvA wSubA initState).2
     (by decide)⟩

/-- C10: Wrapper naming — every wrapper module created by
`getWrapperModule` or by `loadModule` carries, as its host identifier, the
underlying foreign module's own single-segment name (the last component of
its dotted path), while the full dotted path spelling is stored only as
the wrapper's debug name. -/
theorem c10_wrapper_naming (env : ClangEnv) (u : Nat) (c : Option Nat)
    (p : List String) (s : ImporterState) :
    (lookupEntry s.moduleWrappers u = none →
      ((getWrapperModule env u c s).1).name =
        (env.modules u).path.getLastD "" ∧
      ((getWrapperModule env u c s).1).debugName =
        String.intercalate "." (env.modules u).path) ∧
    (∀ cm, env.loadForeignModule p = some cm →
      lookupEntry s.moduleWrappers cm = none →
      ∃ w0, (loadModule env p s).1 = some w0 ∧
        w0.name = (env.modules cm).path.getLastD "" ∧
        w0.debugName = String.intercalate "." (env.modules cm).path) := by
  constructor
  · intro h
    rcases c with _ | c0
    · rw [gwm_miss_none env u s h]
      exact ⟨rfl, rfl⟩
    · rw [gwm_miss_some env u c0 s h]
      exact ⟨rfl, rfl⟩
  · intro cm h1 h2
    rw [loadModule_miss env p s cm h1 h2]
    exact ⟨_, rfl, rfl, rfl⟩

/-- C10 witness: the wrapper freshly created for the submodule `Kit.Sub`
is named `Sub` (the last path component) and its debug name is the dotted
`Kit.Sub`. -/
theorem c10_wrapper_naming_witness :
    ((getWrapperModule clangEnvA 1 none initState).1).name =
      (clangEnvA.modules 1).path.getLastD "" ∧
    ((getWrapperModule clangEnvA 1 none initState).1).debugName =
      String.intercalate "." (clangEnvA.modules 1).path :=
  (c10_wrapper_naming clangEnvA 1 none ["Kit"] initState).1 (by decide)

theorem importName_eq_self {env : SemaEnv} {n c : String}
    (h : importName env n = some c) : c = n := by
  unfold importName at h
  split at h
  · cases h
  · split at h
    · cases h
    · split at h
      · injection h with h
        exact h.symm
      · cases h

theorem macroProbe_mem {env : SemaEnv} {name clangName : String}
    {sd : SwiftDecl} (h : sd ∈ macroProbe env name clangName) :
    ∃ mi, env.macroImport name mi = some sd := by
  unfold macroProbe at h
  split at h
  · rcases hmi : env.getMacroInfo clangName with _ | mi
    · simp only [hmi] at h
      cases h
    · simp only [hmi] at h
      rcases hvd : env.macroImport name mi with _ | vd
      · simp only [hvd] at h
        cases h
      · simp only [hvd] at h
        simp at h
        subst h
        exact ⟨mi, hvd⟩
  · cases h

/-- C9: Reserved-name exclusion — the reserved list consists of the
boolean-literal spellings, and `importName` (the host-to-foreign
translation) returns absent whenever the host name is an operator, or is
on the reserved list, or maps to a foreign keyword token rather than a
plain identifier; no foreign declaration table is consulted at all. -/
theorem c9_reserved_name_exclusion (env : SemaEnv) (name : String) :
    isSwiftReservedName "true" = true ∧
    isSwiftReservedName "false" = true ∧
    ((env.isOperatorName name = true ∨ isSwiftReservedName name = true ∨
        env.isPlainIdentifier name = false) →
      importName env name = none) := by
  refine ⟨rfl, rfl, ?_⟩
  intro h
  unfold importName
  rcases h with h | h | h
  · simp [h]
  · simp [h]
  · simp [h]

/-- C9 witness: translating the reserved boolean-literal spelling `true`
yields absent even in a world where every spelling is a plain foreign
identifier. -/
theorem c9_reserved_name_exclusion_witness :
    importName semaEnvA "true" = none :=
  (c9_reserved_name_exclusion semaEnvA "true").2.2
    (Or.inr (Or.inl (by decide)))

/-- C8: Protocol-suffix stripping — a name carrying the marker suffix
`"Proto"` is stripped of the suffix and looked up in protocol-name mode
(so the trace of `Sema` lookups contains at most the one protocol-mode
lookup of the base name), while a name without the suffix is looked up
unchanged in ordinary-name mode, possibly followed by the tag-name
fallback for the same unchanged name. -/
theorem c8_proto_suffix_stripping (env : SemaEnv) (ap : List String)
    (name0 : String) :
    (strEndsWith name0 "Proto" = true →
      lookupBaseName name0 = name0.dropRight 5 ∧
      lookupModeOf name0 = LookupNameKind.objcProtocolName ∧
      ((lookupValue env ap name0).2 = [] ∨
        (lookupValue env ap name0).2 =
          [(name0.dropRight 5, LookupNameKind.objcProtocolName)])) ∧
    (strEndsWith name0 "Proto" = false →
      lookupBaseName name0 = name0 ∧
      lookupModeOf name0 = LookupNameKind.ordinaryName ∧
      ((lookupValue env ap name0).2 = [] ∨
        (lookupValue env ap name0).2 =
          [(name0, LookupNameKind.ordinaryName)] ∨
        (lookupValue env ap name0).2 =
          [(name0, LookupNameKind.ordinaryName),
           (name0, LookupNameKind.tagName)])) := by
  constructor
  · intro hs
    have hbase : lookupBaseName name0 = name0.dropRight 5 := by
      simp [lookupBaseName, hs]
    have hmode : lookupModeOf name0 = LookupNameKind.objcProtocolName := by
      simp [lookupModeOf, hs]
    refine ⟨hbase, hmode, ?_⟩
    by_cases hg : ap.length = 1 ∧ ap.head? ≠ some name0
    · left
      unfold lookupValue
      rw [if_pos hg]
    · rcases hi : importName env (lookupBaseName name0) with _ | c
      · left
        unfold lookupValue
        rw [if_neg hg]
        simp only [hi]
      · right
        have hc := importName_eq_self hi
        subst hc
        unfold lookupValue
        rw [if_neg hg]
        simp only [hi]
        rw [hmode, hbase]
        rw [if_neg (by simp)]
  · intro hs
    have hbase : lookupBaseName name0 = name0 := by
      simp [lookupBaseName, hs]
    have hmode : lookupModeOf name0 = LookupNameKind.ordinaryName := by
      simp [lookupModeOf, hs]
    refine ⟨hbase, hmode, ?_⟩
    by_cases hg : ap.length = 1 ∧ ap.head? ≠ some name0
    · left
      unfold lookupValue
      rw [if_pos hg]
    · rcases hi : importName env (lookupBaseName name0) with _ | c
      · left
        unfold lookupValue
        rw [if_neg hg]
        simp only [hi]
      · right
        have hc := importName_eq_self hi
        subst hc
        unfold lookupValue
        rw [if_neg hg]
        simp only [hi]
        rw [hmode, hbase]
        by_cases hf : (importLookupHits env
            (env.lookupName name0 LookupNameKind.ordinaryName)).any
            (fun sd => sd.isType) = false
        · right
          rw [if_pos ⟨rfl, hf⟩]
        · left
          rw [if_neg (fun hh => hf hh.2)]

/-- C8 witness: `WidgetProto` is looked up as `Widget` in protocol-name
mode; `Widget` alone is looked up unchanged in ordinary-name mode. -/
theorem c8_proto_suffix_stripping_witness :
    (lookupBaseName "WidgetProto" = "WidgetProto".dropRight 5 ∧
      lookupModeOf "WidgetProto" = LookupNameKind.objcProtocolName ∧
      ((lookupValue semaEnvA [] "WidgetProto").2 = [] ∨
        (lookupValue semaEnvA [] "WidgetProto").2 =
          [("WidgetProto".dropRight 5,
            LookupNameKind.objcProtocolName)])) ∧
    (lookupBaseName "Widget" = "Widget" ∧
      lookupModeOf "Widget" = LookupNameKind.ordinaryName ∧
      ((lookupValue semaEnvA [] "Widget").2 = [] ∨
        (lookupValue semaEnvA [] "Widget").2 =
          [("Widget", LookupNameKind.ordinaryName)] ∨
        (lookupValue semaEnvA [] "Widget").2 =
          [("Widget", LookupNameKind.ordinaryName),
           ("Widget", LookupNameKind.tagName)])) :=
  ⟨(c8_proto_suffix_stripping semaEnvA [] "WidgetProto").1 (by decide),
   (c8_proto_suffix_stripping semaEnvA [] "Widget").2 (by decide)⟩

/-- C4: Tag fallback exclusivity — whenever the tag-name lookup appears in
the `Sema` lookup trace of `lookupValue`, the lookup mode was
ordinary-name (the name carried no `"Proto"` suffix, so the tag lookup
uses the unchanged name) and the ordinary lookup accepted no type-like
result; contrapositively, a type-like ordinary result suppresses the tag
lookup. -/
theorem c4_tag_fallback_exclusive (env : SemaEnv) (ap : List String)
    (name0 n : String)
    (h : (n, LookupNameKind.tagName) ∈ (lookupValue env ap name0).2) :
    n = name0 ∧ strEndsWith name0 "Proto" = false ∧
    lookupModeOf name0 = LookupNameKind.ordinaryName ∧
    (importLookupHits env
        (env.lookupName name0 LookupNameKind.ordinaryName)).any
      (fun sd => sd.isType) = false := by
  by_cases hg : ap.length = 1 ∧ ap.head? ≠ some name0
  · unfold lookupValue at h
    rw [if_pos hg] at h
    cases h
  · unfold lookupValue at h
    rw [if_neg hg] at h
    rcases hi : importName env (lookupBaseName name0) with _ | c
    · simp only [hi] at h
      cases h
    · have hc := importName_eq_self hi
      subst hc
      simp only [hi] at h
      by_cases hs : strEndsWith name0 "Proto" = true
      · have hmode : lookupModeOf name0 = LookupNameKind.objcProtocolName :=
          by simp [lookupModeOf, hs]
        rw [if_neg (by simp [hmode])] at h
        simp [hmode] at h
      · have hs' : strEndsWith name0 "Proto" = false := by
          rwa [Bool.not_eq_true] at hs
        have hbase : lookupBaseName name0 = name0 := by
          simp [lookupBaseName, hs']
        have hmode : lookupModeOf name0 = LookupNameKind.ordinaryName := by
          simp [lookupModeOf, hs']
        rw [hbase, hmode] at h
        by_cases hf : (importLookupHits env
            (env.lookupName name0 LookupNameKind.ordinaryName)).any
            (fun sd => sd.isType) = false
        · rw [if_pos ⟨rfl, hf⟩] at h
          simp at h
          exact ⟨h, hs', hmode, hf⟩
        · rw [if_neg (fun hh => hf hh.2)] at h
          simp at h

/-- C4 witness: in a world where ordinary lookup for `Point` finds
nothing, the tag lookup for `Point` is attempted, and indeed the mode was
ordinary-name and no type-like ordinary result existed. -/
theorem c4_tag_fallback_exclusive_witness :
    "Point" = "Point" ∧ strEndsWith "Point" "Proto" = false ∧
    lookupModeOf "Point" = LookupNameKind.ordinaryName ∧
    (importLookupHits semaEnvA
        (semaEnvA.lookupName "Point" LookupNameKind.ordinaryName)).any
      (fun sd => sd.isType) = false :=
  c4_tag_fallback_exclusive semaEnvA [] "Point" "Point" (by decide)

/-- C5 counterexample: tag-name lookup for `Point` finds a foreign
declaration whose translation lives in the host shim module, and
`lookupValue` nevertheless includes it in its results — the shim-context
filter is not applied on the tag-name fallback path, contradicting the
claim that the full acceptance filter applies to both steps. -/
theorem c5_shim_counterexample :
    (lookupValue semaEnvShim [] "Point").1 = [shimDecl] ∧
    shimDecl.inSwiftModule = true ∧
    semaEnvShim.lookupName "Point" LookupNameKind.tagName = [7] ∧
    semaEnvShim.importDecl 7 = some shimDecl := by
  decide

/-- C5 (amended): every result of the ordinary/protocol lookup step
translated successfully, is value-like and is outside the host shim
module; every result of the tag-name fallback step translated
successfully and is value-like, but is not filtered against the shim
module; and every `lookupValue` result is either a macro translation, an
ordinary/protocol-step result, or a tag-step result. -/
theorem c5_shim_exclusion_amended (env : SemaEnv) (found : List Nat)
    (ap : List String) (name0 : String) (sd : SwiftDecl) :
    (sd ∈ importLookupHits env found →
      sd.isValue = true ∧ sd.inSwiftModule = false ∧
      ∃ d ∈ found, env.importDecl d = some sd) ∧
    (sd ∈ importTagLookupHits env found →
      sd.isValue = true ∧ ∃ d ∈ found, env.importDecl d = some sd) ∧
    (sd ∈ (lookupValue env ap name0).1 →
      (∃ mi, env.macroImport (lookupBaseName name0) mi = some sd) ∨
      sd ∈ importLookupHits env
        (env.lookupName (lookupBaseName name0) (lookupModeOf name0)) ∨
      sd ∈ importTagLookupHits env
        (env.lookupName (lookupBaseName name0) LookupNameKind.tagName)) := by
  refine ⟨?_, ?_, ?_⟩
  · intro hm
    rw [importLookupHits, List.mem_filterMap] at hm
    obtain ⟨d, hd, hf⟩ := hm
    rcases hdi : env.importDecl d with _ | sd'
    · simp only [hdi] at hf
      cases hf
    · simp only [hdi] at hf
      by_cases hacc : (sd'.isValue && !sd'.inSwiftModule) = true
      · rw [if_pos hacc] at hf
        injection hf with hf
        subst hf
        rw [Bool.and_eq_true] at hacc
        obtain ⟨h1, h2⟩ := hacc
        rw [Bool.not_eq_true'] at h2
        exact ⟨h1, h2, d, hd, hdi⟩
      · rw [if_neg hacc] at hf
        cases hf
  · intro hm
    rw [importTagLookupHits, List.mem_filterMap] at hm
    obtain ⟨d, hd, hf⟩ := hm
    rcases hdi : env.importDecl d with _ | sd'
    · simp only [hdi] at hf
      cases hf
    · simp only [hdi] at hf
      by_cases hacc : sd'.isValue = true
      · rw [if_pos hacc] at hf
        injection hf with hf
        subst hf
        exact ⟨hacc, d, hd, hdi⟩
      · rw [if_neg hacc] at hf
        cases hf
  · intro hm
    by_cases hg : ap.length = 1 ∧ ap.head? ≠ some name0
    · unfold lookupValue at hm
      rw [if_pos hg] at hm
      cases hm
    · unfold lookupValue at hm
      rw [if_neg hg] at hm
      rcases hi : importName env (lookupBaseName name0) with _ | c
      · simp only [hi] at hm
        cases hm
      · have hc := importName_eq_self hi
        subst hc
        simp only [hi] at hm
        by_cases hcond : lookupModeOf name0 = LookupNameKind.ordinaryName ∧
            ((importLookupHits env (env.lookupName (lookupBaseName name0)
                (lookupModeOf name0))).any fun sd => sd.isType) = false
        · rw [if_pos hcond] at hm
          rcases List.mem_append.mp hm with hm2 | hm2
          · rcases List.mem_append.mp hm2 with hm3 | hm3
            · exact Or.inl (macroProbe_mem hm3)
            · exact Or.inr (Or.inl hm3)
          · exact Or.inr (Or.inr hm2)
        · rw [if_neg hcond] at hm
          rcases List.mem_append.mp hm with hm2 | hm2
          · exact Or.inl (macroProbe_mem hm2)
          · exact Or.inr (Or.inl hm2)

/-- C5 witness: the accepted ordinary result `okDecl` is value-like and
outside the shim module; the accepted tag result `shimDecl` is
value-like. -/
theorem c5_shim_exclusion_amended_witness :
    (okDecl.isValue = true ∧ okDecl.inSwiftModule = false) ∧
    shimDecl.isValue = true :=
  ⟨⟨((c5_shim_exclusion_amended semaEnvOk [3] [] "Point" okDecl).1
        (by decide)).1,
    ((c5_shim_exclusion_amended semaEnvOk [3] [] "Point" okDecl).1
        (by decide)).2.1⟩,
   ((c5_shim_exclusion_amended semaEnvShim [7] [] "Point" shimDecl).2.1
       (by decide)).1⟩

end ClangImport
